import Mathlib

/-!
Shallow embedding of the job-board module of the repository
(`src/tests/job_search/test_job_board.py`): the `JobPosting` dataclass, the
three concrete job-board clients (`LinkedInJobBoard`, `IndeedJobBoard`,
`GlassdoorJobBoard`) and the `JobBoardFactory`, together with theorems
settling the specification claims about them.

Modelling conventions:
- `datetime.now()` is modelled by an explicit `now : Nat` timestamp argument.
- Python exceptions are modelled by an `Except JobSearchError` codomain; a
  method body that cannot raise is translated as always returning `Except.ok`.
- Each method takes the client's instance state (`ClientState`, the fields set
  in `__init__`) and returns the possibly updated state alongside its result.
- Python list slicing `lst[:limit]` is modelled by `pyTake`, and `str.lower()`
  by `pyLower` (ASCII lowering, which agrees with Python on the ASCII board
  names the factory compares against).
-/

/-- The `JobPosting` dataclass (lines 11-25 of the source): a record of a job
listing. `raw_data` (a Python dict of strings in every construction site) is
modelled as an association list. -/
structure JobPosting where
  id : String
  title : String
  company : String
  location : String
  description : String
  url : String
  datePosted : Nat
  salaryInfo : Option String := none
  jobType : Option String := none
  requirements : Option (List String) := none
  isRemote : Bool := false
  rawData : Option (List (String × String)) := none
  deriving DecidableEq, Repr

/-- Errors the module's specification names. The source itself only ever raises
`ValueError` (in `JobBoardFactory.create`); the other constructors exist so
that claims of the form "fails with `XError`" are statable. -/
inductive JobSearchError where
  | invalidQueryError
  | rateLimitedError
  | notFoundError
  | valueError (msg : String)
  deriving DecidableEq, Repr

/-- The instance state every concrete board client sets in `__init__`:
`_api_key`, `_rate_limited`, `_last_request_time`, `_min_request_interval`.
The interval is a Python float (`1.0` / `1.5` / `2.0`), modelled exactly
as a rational. -/
structure ClientState where
  apiKey : Option String
  rateLimited : Bool
  lastRequestTime : Option Nat
  minRequestInterval : ℚ
  deriving DecidableEq, Repr

/-- The parameters of `JobBoardInterface.search`, with the source's default
values. Python `int` arguments are modelled as `Int`. -/
structure SearchArgs where
  keywords : List String
  location : Option String := none
  radius : Option Int := none
  jobType : Option (List String) := none
  remote : Bool := false
  experienceLevel : Option (List String) := none
  postedWithinDays : Option Int := none
  limit : Int := 50
  deriving DecidableEq, Repr

/-- Python list slicing `lst[:n]` for an `Int` bound `n`: for `0 ≤ n` the first
`n` elements; for `n < 0` all but the last `-n` elements (clamped at the empty
list), exactly Python's semantics. -/
def pyTake (n : Int) (l : List α) : List α :=
  if 0 ≤ n then l.take n.toNat else l.take (l.length - (-n).toNat)

/-- Python `str.lower()` restricted to ASCII case mapping: lowercases every
character of the string. -/
def pyLower (s : String) : String :=
  String.mk (s.data.map Char.toLower)

/-- `LinkedInJobBoard.__init__` (lines 92-102): records the api key and
initialises the placeholder rate-limit fields. -/
def LinkedInJobBoard.init (apiKey : Option String) : ClientState :=
  { apiKey := apiKey
    rateLimited := false
    lastRequestTime := none
    minRequestInterval := 1 }

/-- The mock posting constructed in the body of `LinkedInJobBoard.search`
(lines 129-142). -/
def LinkedInJobBoard.mockJob (now : Nat) : JobPosting :=
  { id := "linkedin-job-123"
    title := "Senior Software Engineer"
    company := "Tech Company Inc."
    location := "San Francisco, CA"
    description := "We\x27re looking for a senior software engineer..."
    url := "https://linkedin.com/jobs/view/123"
    datePosted := now
    salaryInfo := some "$120,000 - $150,000"
    jobType := some "full-time"
    requirements := some ["Python", "AWS", "5+ years experience"]
    isRemote := true
    rawData := some [("original_data", "would be here")] }

/-- `LinkedInJobBoard.search` (lines 108-145): builds a one-element mock result
list and returns `mock_results[:limit]`. The body never raises and never
touches `self`. The search parameters beyond `limit` are received but unused,
as in the source. -/
def LinkedInJobBoard.search (self : ClientState) (args : SearchArgs) (now : Nat) :
    Except JobSearchError (List JobPosting) × ClientState :=
  let mockResults : List JobPosting := [LinkedInJobBoard.mockJob now]
  (Except.ok (pyTake args.limit mockResults), self)

/-- `LinkedInJobBoard.get_job_details` (lines 147-164): returns a mock posting
for any `job_id`, embedding the id into the `id` and `url` fields. -/
def LinkedInJobBoard.getJobDetails (self : ClientState) (jobId : String) (now : Nat) :
    Except JobSearchError JobPosting × ClientState :=
  (Except.ok
    { id := jobId
      title := "Senior Software Engineer"
      company := "Tech Company Inc."
      location := "San Francisco, CA"
      description := "Detailed job description with requirements..."
      url := "https://linkedin.com/jobs/view/" ++ jobId
      datePosted := now
      salaryInfo := some "$120,000 - $150,000"
      jobType := some "full-time"
      requirements := some ["Python", "AWS", "5+ years experience"]
      isRemote := true
      rawData := some [("original_data", "would be here")] }, self)

/-- `LinkedInJobBoard.is_rate_limited` (lines 166-168): returns
`self._rate_limited`. -/
def LinkedInJobBoard.isRateLimited (self : ClientState) : Bool × ClientState :=
  (self.rateLimited, self)

/-- `IndeedJobBoard.__init__` (lines 174-184). -/
def IndeedJobBoard.init (apiKey : Option String) : ClientState :=
  { apiKey := apiKey
    rateLimited := false
    lastRequestTime := none
    minRequestInterval := 1.5 }

/-- The mock posting constructed in the body of `IndeedJobBoard.search`
(lines 208-221). -/
def IndeedJobBoard.mockJob (now : Nat) : JobPosting :=
  { id := "indeed-job-456"
    title := "Python Developer"
    company := "Software Solutions LLC"
    location := "New York, NY"
    description := "Looking for a Python developer with web experience..."
    url := "https://indeed.com/jobs/view/456"
    datePosted := now
    salaryInfo := some "$90,000 - $110,000"
    jobType := some "full-time"
    requirements := some ["Python", "Django", "3+ years experience"]
    isRemote := false
    rawData := some [("original_data", "would be here")] }

/-- `IndeedJobBoard.search` (lines 190-224). -/
def IndeedJobBoard.search (self : ClientState) (args : SearchArgs) (now : Nat) :
    Except JobSearchError (List JobPosting) × ClientState :=
  let mockResults : List JobPosting := [IndeedJobBoard.mockJob now]
  (Except.ok (pyTake args.limit mockResults), self)

/-- `IndeedJobBoard.get_job_details` (lines 226-242). -/
def IndeedJobBoard.getJobDetails (self : ClientState) (jobId : String) (now : Nat) :
    Except JobSearchError JobPosting × ClientState :=
  (Except.ok
    { id := jobId
      title := "Python Developer"
      company := "Software Solutions LLC"
      location := "New York, NY"
      description := "Detailed job description for Python developer role..."
      url := "https://indeed.com/jobs/view/" ++ jobId
      datePosted := now
      salaryInfo := some "$90,000 - $110,000"
      jobType := some "full-time"
      requirements := some ["Python", "Django", "3+ years experience"]
      isRemote := false
      rawData := some [("original_data", "would be here")] }, self)

/-- `IndeedJobBoard.is_rate_limited` (lines 244-246). -/
def IndeedJobBoard.isRateLimited (self : ClientState) : Bool × ClientState :=
  (self.rateLimited, self)

/-- `GlassdoorJobBoard.__init__` (lines 252-262). -/
def GlassdoorJobBoard.init (apiKey : Option String) : ClientState :=
  { apiKey := apiKey
    rateLimited := false
    lastRequestTime := none
    minRequestInterval := 2 }

/-- The mock posting constructed in the body of `GlassdoorJobBoard.search`
(lines 286-299). -/
def GlassdoorJobBoard.mockJob (now : Nat) : JobPosting :=
  { id := "glassdoor-job-789"
    title := "Frontend Developer"
    company := "WebUI Technologies"
    location := "Austin, TX"
    description := "Seeking a skilled frontend developer..."
    url := "https://glassdoor.com/jobs/view/789"
    datePosted := now
    salaryInfo := some "$85,000 - $105,000"
    jobType := some "full-time"
    requirements := some ["JavaScript", "React", "2+ years experience"]
    isRemote := true
    rawData := some [("original_data", "would be here")] }

/-- `GlassdoorJobBoard.search` (lines 268-302). -/
def GlassdoorJobBoard.search (self : ClientState) (args : SearchArgs) (now : Nat) :
    Except JobSearchError (List JobPosting) × ClientState :=
  let mockResults : List JobPosting := [GlassdoorJobBoard.mockJob now]
  (Except.ok (pyTake args.limit mockResults), self)

/-- `GlassdoorJobBoard.get_job_details` (lines 304-320). -/
def GlassdoorJobBoard.getJobDetails (self : ClientState) (jobId : String) (now : Nat) :
    Except JobSearchError JobPosting × ClientState :=
  (Except.ok
    { id := jobId
      title := "Frontend Developer"
      company := "WebUI Technologies"
      location := "Austin, TX"
      description := "Detailed job description for frontend developer role..."
      url := "https://glassdoor.com/jobs/view/" ++ jobId
      datePosted := now
      salaryInfo := some "$85,000 - $105,000"
      jobType := some "full-time"
      requirements := some ["JavaScript", "React", "2+ years experience"]
      isRemote := true
      rawData := some [("original_data", "would be here")] }, self)

/-- `GlassdoorJobBoard.is_rate_limited` (lines 322-324). -/
def GlassdoorJobBoard.isRateLimited (self : ClientState) : Bool × ClientState :=
  (self.rateLimited, self)

/-- The three concrete implementations of `JobBoardInterface`. -/
inductive Board where
  | linkedin
  | indeed
  | glassdoor
  deriving DecidableEq, Repr

/-- Dispatch of `__init__` over the three boards. -/
def Board.init : Board → Option String → ClientState
  | .linkedin => LinkedInJobBoard.init
  | .indeed => IndeedJobBoard.init
  | .glassdoor => GlassdoorJobBoard.init

/-- Dispatch of `search` over the three boards. -/
def Board.search : Board → ClientState → SearchArgs → Nat →
    Except JobSearchError (List JobPosting) × ClientState
  | .linkedin => LinkedInJobBoard.search
  | .indeed => IndeedJobBoard.search
  | .glassdoor => GlassdoorJobBoard.search

/-- Dispatch of `get_job_details` over the three boards. -/
def Board.getJobDetails : Board → ClientState → String → Nat →
    Except JobSearchError JobPosting × ClientState
  | .linkedin => LinkedInJobBoard.getJobDetails
  | .indeed => IndeedJobBoard.getJobDetails
  | .glassdoor => GlassdoorJobBoard.getJobDetails

/-- Dispatch of `is_rate_limited` over the three boards. -/
def Board.isRateLimited : Board → ClientState → Bool × ClientState
  | .linkedin => LinkedInJobBoard.isRateLimited
  | .indeed => IndeedJobBoard.isRateLimited
  | .glassdoor => GlassdoorJobBoard.isRateLimited

/-- The per-board mock posting returned by `search`. -/
def Board.mockJob : Board → Nat → JobPosting
  | .linkedin => LinkedInJobBoard.mockJob
  | .indeed => IndeedJobBoard.mockJob
  | .glassdoor => GlassdoorJobBoard.mockJob

/-- The per-board posting returned by `get_job_details`. -/
def Board.detailJob (b : Board) (jobId : String) (now : Nat) : JobPosting :=
  match (Board.getJobDetails b (Board.init b none) jobId now).1 with
  | .ok p => p
  | .error _ => LinkedInJobBoard.mockJob now

/-- `JobBoardFactory.create` (lines 330-354): lowercases the board name,
returns the matching client, and raises `ValueError` otherwise. -/
def JobBoardFactory.create (boardName : String) (apiKey : Option String) :
    Except JobSearchError (Board × ClientState) :=
  let bn := pyLower boardName
  if bn = "linkedin" then Except.ok (Board.linkedin, LinkedInJobBoard.init apiKey)
  else if bn = "indeed" then Except.ok (Board.indeed, IndeedJobBoard.init apiKey)
  else if bn = "glassdoor" then Except.ok (Board.glassdoor, GlassdoorJobBoard.init apiKey)
  else Except.error (JobSearchError.valueError ("Unknown job board: " ++ bn))

/-- Length of a successful result list (0 for an error). -/
def resultLength (r : Except JobSearchError (List JobPosting)) : Nat :=
  match r with
  | .ok l => l.length
  | .error _ => 0

/-- A posting with its `date_posted` field normalised away, for comparing
search results up to the timestamp. -/
def JobPosting.eraseDate (p : JobPosting) : JobPosting :=
  { p with datePosted := 0 }

/-- A posting with its call-dependent fields (`id`, `url`, `date_posted`)
normalised away, leaving only the per-board constant fields. -/
def JobPosting.constantFields (p : JobPosting) : JobPosting :=
  { p with id := "", url := "", datePosted := 0 }

/-- `sub` occurs as a contiguous substring of `s`. -/
def containsSub (s sub : String) : Prop :=
  ∃ a b, s = a ++ sub ++ b

/-- The operations the program defines on the job-board module, for reasoning
about whole-program effects on already-created postings. -/
inductive Op where
  | opSearch (b : Board) (args : SearchArgs)
  | opDetails (b : Board) (jobId : String)
  | opIsRateLimited (b : Board)
  | opFactoryCreate (boardName : String) (apiKey : Option String)
  deriving Repr

/-- Program state for the operational layer: one client state per board and
the list of all `JobPosting` records constructed so far (the program's heap of
postings, in creation order). -/
structure AgentState where
  clients : Board → ClientState
  created : List JobPosting

/-- One step of the program: runs an operation against the current state.
Faithful to the source, each operation only ever constructs fresh `JobPosting`
records (appended to `created`); no statement in the module assigns to a field
of an existing posting. -/
def runOp (op : Op) (now : Nat) (st : AgentState) : AgentState :=
  match op with
  | .opSearch b args =>
      let r := Board.search b (st.clients b) args now
      { clients := fun b2 => if b2 = b then r.2 else st.clients b2
        created := st.created ++ (match r.1 with | .ok l => l | .error _ => []) }
  | .opDetails b jobId =>
      let r := Board.getJobDetails b (st.clients b) jobId now
      { clients := fun b2 => if b2 = b then r.2 else st.clients b2
        created := st.created ++ (match r.1 with | .ok p => [p] | .error _ => []) }
  | .opIsRateLimited b =>
      let r := Board.isRateLimited b (st.clients b)
      { clients := fun b2 => if b2 = b then r.2 else st.clients b2
        created := st.created }
  | .opFactoryCreate boardName apiKey =>
      match JobBoardFactory.create boardName apiKey with
      | .ok (b, cs) =>
          { clients := fun b2 => if b2 = b then cs else st.clients b2
            created := st.created }
      | .error _ => st

deriving instance DecidableEq for Except

/-- Helper: for a nonnegative bound, Python slicing returns at most that many
elements. -/
theorem pyTake_length_le (n : Int) (l : List α) (h : 0 ≤ n) :
    ((pyTake n l).length : Int) ≤ n := by
  unfold pyTake
  rw [if_pos h]
  have hlen : (l.take n.toNat).length ≤ n.toNat := by
    simp [List.length_take]
  omega

/-- Helper: Python slicing commutes with `List.map`. -/
theorem pyTake_map (f : α → β) (n : Int) (l : List α) :
    pyTake n (l.map f) = (pyTake n l).map f := by
  unfold pyTake
  split <;> simp [List.map_take]

/-- Claim C1, counterexample: a LinkedIn search call with `limit = -1` returns
the empty list (Python `lst[:-1]` drops the last element), whose length `0` is
not `≤ -1`; the claimed bound fails for negative limits. -/
theorem search_limit_bound_counterexample :
    (Board.search Board.linkedin (LinkedInJobBoard.init none)
        { keywords := ["python"], limit := -1 } 0).1 = Except.ok []
    ∧ ¬ ((resultLength (Board.search Board.linkedin (LinkedInJobBoard.init none)
        { keywords := ["python"], limit := -1 } 0).1 : Int) ≤ -1) := by
  decide

/-- Claim C1 (amended): for every board, client state, search arguments and
time, if `limit ≥ 0` then the returned postings sequence has length
`≤ limit`. -/
theorem search_result_length_le_limit (b : Board) (s : ClientState)
    (a : SearchArgs) (t : Nat) (h : 0 ≤ a.limit) :
    ((resultLength (Board.search b s a t).1 : Int)) ≤ a.limit := by
  cases b <;>
    simpa [Board.search, LinkedInJobBoard.search, IndeedJobBoard.search,
      GlassdoorJobBoard.search, resultLength] using pyTake_length_le a.limit _ h

/-- Claim C1, witness: the amended bound at a concrete call with the default
limit of 50. -/
theorem search_result_length_le_limit_witness :
    0 ≤ ({ keywords := ["python"] } : SearchArgs).limit
    ∧ ((resultLength (Board.search Board.linkedin (LinkedInJobBoard.init none)
        { keywords := ["python"] } 0).1 : Int))
        ≤ ({ keywords := ["python"] } : SearchArgs).limit :=
  ⟨by decide, search_result_length_le_limit Board.linkedin (LinkedInJobBoard.init none)
    { keywords := ["python"] } 0 (by decide)⟩

/-- Claim C2, counterexample: a search call with an empty keyword list succeeds
with the one mock posting instead of failing with `InvalidQueryError`; the
source performs no query validation. -/
theorem search_empty_keywords_counterexample :
    (Board.search Board.linkedin (LinkedInJobBoard.init none)
        { keywords := [] } 0).1 = Except.ok [LinkedInJobBoard.mockJob 0]
    ∧ (Board.search Board.linkedin (LinkedInJobBoard.init none)
        { keywords := [] } 0).1 ≠ Except.error JobSearchError.invalidQueryError := by
  decide

/-- Claim C2 (amended): no search invocation raises `InvalidQueryError` (or any
other error): every call, including those with an empty keyword set or a
non-positive limit, returns the mock result list truncated by `limit`. -/
theorem search_never_invalid_query (b : Board) (s : ClientState)
    (a : SearchArgs) (t : Nat) :
    (Board.search b s a t).1 = Except.ok (pyTake a.limit [Board.mockJob b t]) := by
  cases b <;> rfl

/-- Claim C3, counterexample: with the rate-limited flag set, search still
returns the mock postings instead of failing with `RateLimitedError`; the flag
is never consulted. -/
theorem search_rate_limited_counterexample :
    ({ LinkedInJobBoard.init none with rateLimited := true } : ClientState).rateLimited = true
    ∧ (Board.search Board.linkedin
        { LinkedInJobBoard.init none with rateLimited := true }
        { keywords := ["python"] } 0).1 = Except.ok [LinkedInJobBoard.mockJob 0]
    ∧ (Board.search Board.linkedin
        { LinkedInJobBoard.init none with rateLimited := true }
        { keywords := ["python"] } 0).1 ≠ Except.error JobSearchError.rateLimitedError := by
  decide

/-- Claim C3 (amended): even when the client is in the rate-limited state,
search does not fail with `RateLimitedError`; it returns the same truncated
mock postings as in the non-rate-limited state. -/
theorem search_ignores_rate_limit_flag (b : Board) (s : ClientState)
    (a : SearchArgs) (t : Nat) (_h : s.rateLimited = true) :
    (Board.search b s a t).1 = Except.ok (pyTake a.limit [Board.mockJob b t]) := by
  cases b <;> rfl

/-- Claim C3, witness: the amended statement at a concrete rate-limited
client. -/
theorem search_ignores_rate_limit_flag_witness :
    ({ LinkedInJobBoard.init none with rateLimited := true } : ClientState).rateLimited = true
    ∧ (Board.search Board.linkedin
        { LinkedInJobBoard.init none with rateLimited := true }
        { keywords := ["python"] } 7).1
      = Except.ok (pyTake ({ keywords := ["python"] } : SearchArgs).limit
          [Board.mockJob Board.linkedin 7]) :=
  ⟨rfl, search_ignores_rate_limit_flag Board.linkedin
    { LinkedInJobBoard.init none with rateLimited := true }
    { keywords := ["python"] } 7 rfl⟩

/-- Claim C4, counterexample: `get_job_details` on an id no source knows
returns a mock posting built around that id instead of failing with
`NotFoundError`. -/
theorem get_job_details_unknown_id_counterexample :
    (Board.getJobDetails Board.linkedin (LinkedInJobBoard.init none)
        "no-such-job" 0).1 = Except.ok (Board.detailJob Board.linkedin "no-such-job" 0)
    ∧ (Board.getJobDetails Board.linkedin (LinkedInJobBoard.init none)
        "no-such-job" 0).1 ≠ Except.error JobSearchError.notFoundError := by
  decide

/-- Claim C4 (amended): for every board, state and job id, `get_job_details`
returns the per-board mock posting built around that id; `NotFoundError` is
never raised, and no id is treated as unknown. -/
theorem get_job_details_always_ok (b : Board) (s : ClientState)
    (jid : String) (t : Nat) :
    (Board.getJobDetails b s jid t).1 = Except.ok (Board.detailJob b jid t) := by
  cases b <;> rfl

/-- Claim C5: search results are hardcoded mock data: two search calls on the
same board with the same limit return identical postings up to the
`date_posted` timestamp, whatever the other arguments and the client state. -/
theorem search_results_constant_up_to_date (b : Board) (s1 s2 : ClientState)
    (a1 a2 : SearchArgs) (t1 t2 : Nat) (h : a1.limit = a2.limit) :
    Except.map (List.map JobPosting.eraseDate) (Board.search b s1 a1 t1).1
      = Except.map (List.map JobPosting.eraseDate) (Board.search b s2 a2 t2).1 := by
  cases b <;>
    simp [Board.search, LinkedInJobBoard.search, IndeedJobBoard.search,
      GlassdoorJobBoard.search, Except.map, h, ← pyTake_map,
      JobPosting.eraseDate, LinkedInJobBoard.mockJob, IndeedJobBoard.mockJob,
      GlassdoorJobBoard.mockJob]

/-- Claim C5, witness: two concrete Indeed searches with different keywords,
location, remote flag and timestamps but the same limit agree up to
`date_posted`. -/
theorem search_results_constant_up_to_date_witness :
    ({ keywords := ["python"], limit := 3 } : SearchArgs).limit
      = ({ keywords := ["rust"], location := some "NYC", remote := true,
            limit := 3 } : SearchArgs).limit
    ∧ Except.map (List.map JobPosting.eraseDate)
        (Board.search Board.indeed (IndeedJobBoard.init none)
          { keywords := ["python"], limit := 3 } 1).1
      = Except.map (List.map JobPosting.eraseDate)
        (Board.search Board.indeed (IndeedJobBoard.init (some "key"))
          { keywords := ["rust"], location := some "NYC", remote := true,
            limit := 3 } 2).1 :=
  ⟨rfl, search_results_constant_up_to_date Board.indeed (IndeedJobBoard.init none)
    (IndeedJobBoard.init (some "key"))
    { keywords := ["python"], limit := 3 }
    { keywords := ["rust"], location := some "NYC", remote := true, limit := 3 }
    1 2 rfl⟩

/-- Claim C6: the placeholder rate-limit fields are never wired to throttling:
`search` and `get_job_details` return the same result on any two client states
(so the result depends on none of `_min_request_interval`,
`_last_request_time`, `_rate_limited`) and return the client state
unchanged. -/
theorem search_details_frame (b : Board) (s1 s2 : ClientState)
    (a : SearchArgs) (jid : String) (t : Nat) :
    (Board.search b s1 a t).1 = (Board.search b s2 a t).1
    ∧ (Board.search b s1 a t).2 = s1
    ∧ (Board.getJobDetails b s1 jid t).1 = (Board.getJobDetails b s2 jid t).1
    ∧ (Board.getJobDetails b s1 jid t).2 = s1 := by
  cases b <;> exact ⟨rfl, rfl, rfl, rfl⟩

/-- Claim C7: `is_rate_limited` is a pure read: it returns the current value of
the client's `_rate_limited` flag and leaves the client state unchanged. -/
theorem is_rate_limited_pure_read (b : Board) (s : ClientState) :
    (Board.isRateLimited b s).1 = s.rateLimited
    ∧ (Board.isRateLimited b s).2 = s := by
  cases b <;> exact ⟨rfl, rfl⟩

/-- Claim C8: postings are immutable after creation: running any operation of
the program leaves every already-created `JobPosting` record unchanged (the
operations only ever append freshly constructed postings; none assigns to a
field of an existing one). -/
theorem postings_immutable_after_creation (op : Op) (t : Nat) (st : AgentState) :
    (runOp op t st).created.take st.created.length = st.created := by
  cases op with
  | opSearch b a => simp [runOp, List.take_left]
  | opDetails b j => simp [runOp, List.take_left]
  | opIsRateLimited b => simp [runOp]
  | opFactoryCreate n k =>
      unfold runOp
      cases h : JobBoardFactory.create n k with
      | ok p => cases p with
        | mk b cs => simp [h]
      | error e => simp [h]

/-- Claim C9: the factory matches board names case-insensitively: `create`
returns the LinkedIn, Indeed or Glassdoor client exactly when the lowercased
name is `"linkedin"`, `"indeed"` or `"glassdoor"` respectively, and raises
`ValueError` for every other name. -/
theorem factory_create_spec (boardName : String) (key : Option String) :
    (JobBoardFactory.create boardName key
        = Except.ok (Board.linkedin, LinkedInJobBoard.init key)
      ↔ pyLower boardName = "linkedin")
    ∧ (JobBoardFactory.create boardName key
        = Except.ok (Board.indeed, IndeedJobBoard.init key)
      ↔ pyLower boardName = "indeed")
    ∧ (JobBoardFactory.create boardName key
        = Except.ok (Board.glassdoor, GlassdoorJobBoard.init key)
      ↔ pyLower boardName = "glassdoor")
    ∧ (pyLower boardName ≠ "linkedin" → pyLower boardName ≠ "indeed" →
        pyLower boardName ≠ "glassdoor" →
        JobBoardFactory.create boardName key
          = Except.error (JobSearchError.valueError
              ("Unknown job board: " ++ pyLower boardName))) := by
  unfold JobBoardFactory.create
  by_cases h1 : pyLower boardName = "linkedin"
  · simp [h1]
  · by_cases h2 : pyLower boardName = "indeed"
    · simp [h1, h2]
    · by_cases h3 : pyLower boardName = "glassdoor"
      · simp [h1, h2, h3]
      · simp [h1, h2, h3]

/-- Claim C9, witness: the factory at the mixed-case name `"LinkedIn"` and at
the unknown name `"monster"`. -/
theorem factory_create_spec_witness :
    JobBoardFactory.create "LinkedIn" none
      = Except.ok (Board.linkedin, LinkedInJobBoard.init none)
    ∧ JobBoardFactory.create "monster" none
      = Except.error (JobSearchError.valueError
          ("Unknown job board: " ++ pyLower "monster")) :=
  ⟨(factory_create_spec "LinkedIn" none).1.mpr (by decide),
   (factory_create_spec "monster" none).2.2.2 (by decide) (by decide) (by decide)⟩

/-- Claim C10: `get_job_details` returns a posting whose `id` is the requested
job id and whose `url` contains the job id as a substring; every other field
except `date_posted` is a per-board constant (any two calls on the same board,
whatever the state, id and time, agree once `id`, `url` and `date_posted` are
normalised away). -/
theorem get_job_details_shape (b : Board) (s1 s2 : ClientState)
    (j1 j2 : String) (t1 t2 : Nat) :
    ∃ p1 p2,
      (Board.getJobDetails b s1 j1 t1).1 = Except.ok p1
      ∧ (Board.getJobDetails b s2 j2 t2).1 = Except.ok p2
      ∧ p1.id = j1
      ∧ containsSub p1.url j1
      ∧ JobPosting.constantFields p1 = JobPosting.constantFields p2 := by
  cases b
  · exact ⟨_, _, rfl, rfl, rfl,
      ⟨"https://linkedin.com/jobs/view/", "", by simp⟩, rfl⟩
  · exact ⟨_, _, rfl, rfl, rfl,
      ⟨"https://indeed.com/jobs/view/", "", by simp⟩, rfl⟩
  · exact ⟨_, _, rfl, rfl, rfl,
      ⟨"https://glassdoor.com/jobs/view/", "", by simp⟩, rfl⟩
